import Mathlib

/-!
Verification model of the CMSCure client SDK repository
(react-native-cmscure-sdk).

The repository ships three sibling implementations of the same
synchronization core, which we embed separately where claims cite them:

* `KotlinCure`  — `android/src/main/java/com/cmscure/sdk/CMSCureSDK.kt`
* `KotlinRN`    — `android/src/main/java/com/reactnativecmscuresdk/CMSCureSDK.kt`
* `SwiftSDK`    — the iOS Swift implementation (`CMSCureSDK.swift`)

Mutable string-keyed dictionaries (`MutableMap` / Swift `Dictionary`) are
modelled by association lists with an insert-or-replace update; network
calls are modelled by passing the decoded server response (or an error)
explicitly to the pure state-transition function that embeds the body of
the corresponding completion handler.  All functions are total: the model
cannot raise, mirroring the catch-and-log discipline of the source.
-/

namespace CMSCure

/-- Association-list lookup, modelling `m[k]` on a string-keyed map. -/
def alookup {α : Type} : List (String × α) → String → Option α
  | [], _ => none
  | (k, v) :: rest, key => if k = key then some v else alookup rest key

/-- Insert-or-replace, modelling the assignment `m[k] = v` on a map. -/
def aput {α : Type} : List (String × α) → String → α → List (String × α)
  | [], key, v => [(key, v)]
  | (k, w) :: rest, key, v =>
      if k = key then (k, v) :: rest else (k, w) :: aput rest key v

/-- Double lookup `cache[screen]?[key]` used by every read accessor. -/
def alookup2 {α : Type} (c : List (String × List (String × α)))
    (screen key : String) : Option α :=
  (alookup c screen).bind (fun sc => alookup sc key)

/-- Triple lookup `cache[screen]?[key]?[locale]`. -/
def alookup3 (c : List (String × List (String × List (String × String))))
    (screen key locale : String) : Option String :=
  (alookup2 c screen key).bind (fun lm => alookup lm locale)

/-- `[ItemKey: [LanguageCode: Value]]` — one screen of the content cache. -/
abbrev LocaleMap := List (String × String)

abbrev ScreenCache := List (String × LocaleMap)

/-- `[ScreenName: [ItemKey: [LanguageCode: Value]]]` — the content cache. -/
abbrev Cache := List (String × ScreenCache)

instance : DecidableEq LocaleMap := inferInstance

instance : DecidableEq ScreenCache := inferInstance

instance : DecidableEq Cache := inferInstance

/-- One `{key, values}` entry of a `/translations` response
(`TranslationKeyItem` in both Kotlin variants, the parsed
`keysArray` element in Swift). -/
structure TranslationKeyItem where
  key : String
  values : LocaleMap
  deriving DecidableEq, Repr

/-- `ImageAsset(key, url)` from the `/images` endpoint. -/
structure ImageAsset where
  key : String
  url : String
  deriving DecidableEq, Repr

/-- The tagged union `JSONValue` of the Kotlin data-store model.  The
payload of `doubleValue` is the decimal literal of the `Double` as
printed by Gson (Java doubles always print with a decimal point, which
is exactly how the Gson adapter tells them apart from `Int`). -/
inductive JSONValue where
  | stringValue (value : String)
  | intValue (value : Int)
  | doubleValue (lit : String)
  | boolValue (value : Bool)
  | localizedStringValue (values : List (String × String))
  | nullValue
  deriving DecidableEq, Repr

/-- `DataStoreItem(_id, data, createdAt, updatedAt)`. -/
structure DataStoreItem where
  id : String
  data : List (String × JSONValue)
  createdAt : String
  updatedAt : String
  deriving DecidableEq, Repr

/-- Network outcome of one decoded API call: either the decoded value or
a network/deserialization failure (any exception caught by the
surrounding `try`/`catch`). -/
inductive NetResult (α : Type) where
  | ok (value : α)
  | err
  deriving DecidableEq, Repr

/-- The symmetric AES key `SecretKeySpec(SHA256(secret), "AES")` /
`SymmetricKey(SHA256(secret))`, modelled symbolically by the UTF-8
secret it is derived from (distinct secrets give distinct keys). -/
inductive DerivedKey where
  | sha256aes (secret : String)
  deriving DecidableEq, Repr

/-- The per-item cache-update loop shared verbatim by the Kotlin
`syncTranslations` (`screenCache[item.key] = item.values.toMutableMap()`)
and the Swift one (`newCacheDataForScreen[keyString] = languageValueMap`):
each fetched item key has its whole language map assigned into the
existing screen dictionary. -/
def applyTranslationItems (sc : ScreenCache) (ks : List TranslationKeyItem) :
    ScreenCache :=
  ks.foldl (fun acc item => aput acc item.key item.values) sc

/-- Kotlin `String.isBlank()` — empty or all-whitespace. -/
def isBlank (s : String) : Bool := s.all Char.isWhitespace

/-- Kotlin `a.equals(b, ignoreCase = true)`. -/
def eqIgnoreCase (a b : String) : Bool := a.toLower == b.toLower

/-- The three-field `CureConfiguration(projectId, apiKey, projectSecret)`
shared by the Swift SDK and the `com.reactnativecmscuresdk` variant. -/
structure FullConfiguration where
  projectId : String
  apiKey : String
  projectSecret : String
  deriving DecidableEq, Repr

/-- Observable side effects scheduled by a socket event handler:
which sync requests it fires and whether it emits the handshake. -/
inductive SdkAction where
  | sendHandshake
  | syncTranslationsFor (screenName : String)
  | syncImagesAction
  | syncStoreFor (apiIdentifier : String)
  | emitAllScreens
  deriving DecidableEq, Repr

/-- The socket events each variant registers listeners for. -/
inductive SocketEvent where
  | connect
  | handshakeAck
  | translationsUpdated (screenName : Option String)
  | dataStoreUpdated (storeApiIdentifier : Option String)
  | disconnect
  | connectError
  deriving DecidableEq, Repr

/-- A persisted snapshot file as seen at startup: missing, undecodable
(parse failure), unreadable (I/O failure), or holding decoded content. -/
inductive DiskFile (α : Type) where
  | absent
  | corrupted
  | unreadable
  | valid (content : α)
  deriving DecidableEq, Repr

/-- Structural JSON values, the level at which `Gson`/`JSONEncoder`
serialization is modelled.  A number token is `numI` when its literal
has no decimal point (Kotlin `Int`) and `numD` with its decimal literal
otherwise (Java doubles always print with a point), which is exactly
the `numStr.contains(".")` discrimination of the Gson adapter. -/
inductive Json where
  | null
  | bool (b : Bool)
  | str (s : String)
  | numI (n : Int)
  | numD (lit : String)
  | arr (elements : List Json)
  | obj (fields : List (String × Json))

/-- Decode every field value of a JSON object with `f`, failing if any
value fails (Gson aborts the whole parse on a mismatched entry). -/
def decodeFields {α : Type} (f : Json → Option α) :
    List (String × Json) → Option (List (String × α))
  | [] => some []
  | (k, j) :: rest =>
    match f j with
    | none => none
    | some v =>
      match decodeFields f rest with
      | none => none
      | some tl => some ((k, v) :: tl)

/-- Decode a JSON object into an association list. -/
def decodeObj {α : Type} (f : Json → Option α) : Json → Option (List (String × α))
  | .obj fields => decodeFields f fields
  | _ => none

/-- Decode every element of a JSON array with `f`. -/
def decodeElems {α : Type} (f : Json → Option α) : List Json → Option (List α)
  | [] => some []
  | j :: rest =>
    match f j with
    | none => none
    | some v =>
      match decodeElems f rest with
      | none => none
      | some tl => some (v :: tl)

def decodeStringJson : Json → Option String
  | .str s => some s
  | _ => none

def encodeLocaleMap (lm : LocaleMap) : Json :=
  .obj (lm.map (fun p => (p.1, Json.str p.2)))

def decodeLocaleMap : Json → Option LocaleMap :=
  decodeObj decodeStringJson

def encodeScreen (sc : ScreenCache) : Json :=
  .obj (sc.map (fun p => (p.1, encodeLocaleMap p.2)))

def decodeScreen : Json → Option ScreenCache :=
  decodeObj decodeLocaleMap

/-- `gson.toJson(cache)` with
`cache : MutableMap<String, MutableMap<String, MutableMap<String, String>>>`. -/
def encodeCache (c : Cache) : Json :=
  .obj (c.map (fun p => (p.1, encodeScreen p.2)))

/-- `gson.fromJson(json, TypeToken<MutableMap<String, MutableMap<String,
MutableMap<String, String>>>>)`. -/
def decodeCache : Json → Option Cache :=
  decodeObj decodeScreen

/-- `JSONValue.GsonAdapter.serialize`. -/
def encodeJSONValue : JSONValue → Json
  | .stringValue s => .str s
  | .intValue n => .numI n
  | .doubleValue lit => .numD lit
  | .boolValue b => .bool b
  | .localizedStringValue m => .obj (m.map (fun p => (p.1, Json.str p.2)))
  | .nullValue => .null

/-- `JSONValue.GsonAdapter.deserialize`: primitives map to their tagged
variant, JSON objects decode as a `Map<String, String>` of localized
values (failing, as Gson does, on a non-string field value), and
anything else (a JSON array) falls into the `else -> NullValue` arm. -/
def decodeJSONValue : Json → Option JSONValue
  | .null => some .nullValue
  | .bool b => some (.boolValue b)
  | .str s => some (.stringValue s)
  | .numI n => some (.intValue n)
  | .numD lit => some (.doubleValue lit)
  | .obj fields => (decodeFields decodeStringJson fields).map .localizedStringValue
  | .arr _ => some .nullValue

/-- Gson reflective serialization of `DataStoreItem` (field `_id` via
its `@SerializedName`). -/
def encodeDataStoreItem (item : DataStoreItem) : Json :=
  .obj [("_id", .str item.id),
        ("data", .obj (item.data.map (fun p => (p.1, encodeJSONValue p.2)))),
        ("createdAt", .str item.createdAt),
        ("updatedAt", .str item.updatedAt)]

/-- Gson reflective deserialization of `DataStoreItem`: fields are
located by name in the JSON object. -/
def decodeDataStoreItem : Json → Option DataStoreItem
  | .obj fields =>
    match alookup fields "_id", alookup fields "data",
        alookup fields "createdAt", alookup fields "updatedAt" with
    | some (.str i), some dataJson, some (.str ca), some (.str ua) =>
      match decodeObj decodeJSONValue dataJson with
      | none => none
      | some d => some ⟨i, d, ca, ua⟩
    | _, _, _, _ => none
  | _ => none

def encodeStoreItems (items : List DataStoreItem) : Json :=
  .arr (items.map encodeDataStoreItem)

def decodeStoreItems : Json → Option (List DataStoreItem)
  | .arr es => decodeElems decodeDataStoreItem es
  | _ => none

/-- `gson.toJson(dataStoreCache)` with
`dataStoreCache : MutableMap<String, List<DataStoreItem>>`. -/
def encodeDataStoreCache (dsc : List (String × List DataStoreItem)) : Json :=
  .obj (dsc.map (fun p => (p.1, encodeStoreItems p.2)))

/-- `gson.fromJson(json, TypeToken<MutableMap<String, List<DataStoreItem>>>)`. -/
def decodeDataStoreCache : Json → Option (List (String × List DataStoreItem)) :=
  decodeObj decodeStoreItems

/-- The language map of the last response item carrying the given key
(the last `put` wins when a response repeats a key). -/
def lastValues : List TranslationKeyItem → String → Option LocaleMap
  | [], _ => none
  | item :: rest, k =>
    match lastValues rest k with
    | some v => some v
    | none => if item.key = k then some item.values else none

end CMSCure

namespace KotlinCure

open CMSCure

/-- `CureConfiguration(projectId, apiKey)` of the `com.cmscure.sdk`
variant (this variant takes no project secret in `configure`). -/
structure CureConfiguration where
  projectId : String
  apiKey : String
  deriving DecidableEq, Repr

/-- `TranslationResponse(keys: List<TranslationKeyItem>?)`. -/
structure TranslationResponse where
  keys : Option (List TranslationKeyItem)
  deriving DecidableEq, Repr

/-- `DataStoreResponse(items: List<DataStoreItem>)`. -/
structure DataStoreResponse where
  items : List DataStoreItem
  deriving DecidableEq, Repr

/-- `AuthResult(token, projectSecret, tabs, stores)`. -/
structure AuthResult where
  token : Option String
  receivedProjectSecret : Option String
  tabs : Option (List String)
  stores : Option (List String)
  deriving DecidableEq, Repr

/-- The mutable singleton state of `object CMSCureSDK`
(`com.cmscure.sdk` variant). -/
structure SDKState where
  configuration : Option CureConfiguration
  authToken : Option String
  symmetricKey : Option DerivedKey
  cache : Cache
  dataStoreCache : List (String × List DataStoreItem)
  currentLanguage : String
  knownProjectTabs : List String
  knownDataStoreIdentifiers : List String
  deriving DecidableEq, Repr

/-- State right after `init`: everything empty, default language "en"
(no persisted state on a fresh install). -/
def initialState : SDKState :=
  { configuration := none
    authToken := none
    symmetricKey := none
    cache := []
    dataStoreCache := []
    currentLanguage := "en"
    knownProjectTabs := []
    knownDataStoreIdentifiers := [] }

def COLORS_UPDATED : String := "__colors__"

def IMAGES_UPDATED : String := "__images__"

def ALL_SCREENS_UPDATED : String := "__ALL_SCREENS_UPDATED__"

/-- `translation(forKey, inTab)`: `cache[inTab]?.get(forKey)?.get(currentLanguage) ?: ""`. -/
def SDKState.translation (st : SDKState) (forKey inTab : String) : String :=
  (alookup3 st.cache inTab forKey st.currentLanguage).getD ""

/-- `colorValue(forKey)`: `cache["__colors__"]?.get(forKey)?.get("color")`. -/
def SDKState.colorValue (st : SDKState) (forKey : String) : Option String :=
  alookup3 st.cache "__colors__" forKey "color"

/-- `imageURL(forKey)`: `cache[IMAGES_UPDATED]?.get(forKey)?.get("url")`. -/
def SDKState.imageURL (st : SDKState) (forKey : String) : Option String :=
  alookup3 st.cache IMAGES_UPDATED forKey "url"

/-- `getStoreItems(forIdentifier)`: `dataStoreCache[forIdentifier] ?: emptyList()`. -/
def SDKState.getStoreItems (st : SDKState) (forIdentifier : String) :
    List DataStoreItem :=
  (alookup st.dataStoreCache forIdentifier).getD []

/-- `syncTranslations(screenName, completion)`: returns the state after the
completion handler ran together with the `Boolean` passed to `completion`.
On any exception (`NetResult.err`) or a response without `keys`, the cache
is untouched and the completion receives `false`. -/
def syncTranslations (st : SDKState) (screenName : String)
    (resp : NetResult TranslationResponse) : SDKState × Bool :=
  match st.configuration with
  | none => (st, false)
  | some _ =>
    match resp with
    | .err => (st, false)
    | .ok r =>
      match r.keys with
      | none => (st, false)
      | some ks =>
        let screenCache := (alookup st.cache screenName).getD []
        let newScreen := applyTranslationItems screenCache ks
        ({ st with cache := aput st.cache screenName newScreen }, true)

/-- How an HTTP 404 reaches `syncTranslations` in this variant: the
fetch is a Retrofit suspend call (`apiService?.getTranslations(...)`),
which answers any non-2xx status — a 404 included — by throwing
`HttpException`; the surrounding `catch (e: Exception)` makes that the
error outcome. This variant has no 404-as-empty-content path. -/
def http404Outcome : NetResult TranslationResponse :=
  NetResult.err

/-- `syncImages(completion)`: merges each asset into the `__images__`
screen of the cache (`cache.getOrPut(IMAGES_UPDATED)` followed by
per-asset puts). -/
def syncImages (st : SDKState) (resp : NetResult (List ImageAsset)) :
    SDKState × Bool :=
  match st.configuration with
  | none => (st, false)
  | some _ =>
    match resp with
    | .err => (st, false)
    | .ok assets =>
      let imageCache := (alookup st.cache IMAGES_UPDATED).getD []
      let newImages :=
        assets.foldl (fun acc asset => aput acc asset.key [("url", asset.url)]) imageCache
      ({ st with cache := aput st.cache IMAGES_UPDATED newImages }, true)

/-- `syncStore(apiIdentifier, completion)`: wholesale replace of the
data-store namespace (`dataStoreCache[apiIdentifier] = response.items`). -/
def syncStore (st : SDKState) (apiIdentifier : String)
    (resp : NetResult DataStoreResponse) : SDKState × Bool :=
  match st.configuration with
  | none => (st, false)
  | some _ =>
    match resp with
    | .err => (st, false)
    | .ok r =>
      ({ st with dataStoreCache := aput st.dataStoreCache apiIdentifier r.items }, true)

/-- `setLanguage(languageCode, force)` (synchronous part; the triggered
`syncIfOutdated` network pass is modelled separately):
blank codes and a repeated non-forced code are ignored, otherwise only
`currentLanguage` is assigned (and persisted). -/
def setLanguage (st : SDKState) (languageCode : String) (force : Bool) : SDKState :=
  if languageCode.all Char.isWhitespace ∨ (languageCode = st.currentLanguage ∧ ¬ force) then
    st
  else
    { st with currentLanguage := languageCode }

/-- `performAuthentication` success path: on a response carrying both a
token and a server-confirmed `projectSecret`, stores the token,
re-derives the symmetric key from the received secret and installs the
received tab and store lists; otherwise the state is unchanged. -/
def performAuthentication (st : SDKState) (resp : NetResult AuthResult) : SDKState :=
  match st.configuration with
  | none => st
  | some _ =>
    match resp with
    | .err => st
    | .ok a =>
      match a.token, a.receivedProjectSecret with
      | some t, some s =>
          { st with
            authToken := some t
            symmetricKey := some (DerivedKey.sha256aes s)
            knownProjectTabs := a.tabs.getD []
            knownDataStoreIdentifiers := a.stores.getD [] }
      | _, _ => st

/-- The key under which `sendSocketHandshake` encrypts its
`{projectId}` payload: the stored `symmetricKey` (the handshake is
skipped when it is missing). -/
def handshakeKey (st : SDKState) : Option DerivedKey :=
  st.symmetricKey

/-- `sync(screenName)` dispatch of the `com.cmscure.sdk` variant:
`IMAGES_UPDATED -> syncImages; COLORS_UPDATED -> syncTranslations("__colors__");
else -> syncTranslations(screenName)`. -/
def syncDispatch (screenName : String) : SdkAction :=
  if screenName = IMAGES_UPDATED then .syncImagesAction
  else if screenName = COLORS_UPDATED then .syncTranslationsFor "__colors__"
  else .syncTranslationsFor screenName

/-- `syncIfOutdated()`: sync every known tab plus colors and images, sync
every known data store, then emit `ALL_SCREENS_UPDATED`. -/
def syncIfOutdatedActions (st : SDKState) : List SdkAction :=
  ((st.knownProjectTabs ++ [COLORS_UPDATED, IMAGES_UPDATED]).map syncDispatch)
    ++ (st.knownDataStoreIdentifiers.map SdkAction.syncStoreFor)
    ++ [SdkAction.emitAllScreens]

/-- `handleSocketUpdate(args, isDataStore)`: blank or missing identifiers
are ignored, `"__ALL__"` (case-insensitive) triggers `syncIfOutdated`,
otherwise exactly the named namespace is re-fetched. -/
def handleSocketUpdate (st : SDKState) (identifier : Option String)
    (isDataStore : Bool) : List SdkAction :=
  match identifier with
  | none => []
  | some name =>
    if isBlank name then []
    else if eqIgnoreCase name "__ALL__" then syncIfOutdatedActions st
    else if isDataStore then [.syncStoreFor name]
    else [syncDispatch name]

/-- The socket handlers registered by `setupSocketHandlers` in the
`com.cmscure.sdk` variant.  Note the `handshake_ack` listener: its body
is a single `logDebug` call, so the event changes no state and
schedules no sync. -/
def onSocketEvent (st : SDKState) (ev : SocketEvent) : SDKState × List SdkAction :=
  match ev with
  | .connect => (st, [.sendHandshake])
  | .handshakeAck => (st, [])
  | .translationsUpdated sn => (st, handleSocketUpdate st sn false)
  | .dataStoreUpdated sid => (st, handleSocketUpdate st sid true)
  | .disconnect => (st, [])
  | .connectError => (st, [])

/-- `loadCacheFromDisk` of the `com.cmscure.sdk` variant: any exception
is caught and logged only — the corrupted file is NOT deleted — and the
in-memory cache keeps its initial empty value.  Returns the loaded
cache together with the file left on disk. -/
def loadCacheFromDisk : DiskFile Cache → Cache × DiskFile Cache
  | .absent => ([], .absent)
  | .corrupted => ([], .corrupted)
  | .unreadable => ([], .unreadable)
  | .valid c => (c, .valid c)

/-- `persistCacheToDisk()`: `File(...).writeText(gson.toJson(cache))`. -/
def persistCacheToDisk (st : SDKState) : Json :=
  encodeCache st.cache

/-- `persistDataStoreCacheToDisk()`. -/
def persistDataStoreCacheToDisk (st : SDKState) : Json :=
  encodeDataStoreCache st.dataStoreCache

/-- `loadCacheFromDisk()` applied to a present, readable snapshot file
holding the given JSON: `cache = gson.fromJson(json, type) ?: mutableMapOf()`
(on a parse exception the catch block keeps the initial empty cache). -/
def loadCacheJson (j : Json) : Cache :=
  (decodeCache j).getD []

/-- `loadDataStoreCacheFromDisk()` applied to a present, readable
snapshot file holding the given JSON. -/
def loadDataStoreCacheJson (j : Json) : List (String × List DataStoreItem) :=
  (decodeDataStoreCache j).getD []

/-- Process restart: `init` runs `loadPersistedState`, which restores
the persisted language from SharedPreferences and loads the cache and
data-store snapshot files written by the previous process. -/
def restartFromDisk (cacheFile dataStoreFile : Json) (persistedLanguage : String) :
    SDKState :=
  { initialState with
      cache := loadCacheJson cacheFile
      dataStoreCache := loadDataStoreCacheJson dataStoreFile
      currentLanguage := persistedLanguage }

end KotlinCure

namespace KotlinRN

open CMSCure

def COLORS_UPDATED : String := "__COLORS_UPDATED__"

def IMAGES_UPDATED : String := "__IMAGES_UPDATED__"

def ALL_SCREENS_UPDATED : String := "__ALL_SCREENS_UPDATED__"

/-- The mutable singleton state of the `com.reactnativecmscuresdk`
variant (fields relevant to the claims). -/
structure RnState where
  configuration : Option FullConfiguration
  apiSecret : Option String
  symmetricKey : Option DerivedKey
  authToken : Option String
  cache : Cache
  currentLanguage : String
  knownProjectTabs : List String
  handshakeAcknowledged : Bool
  deriving DecidableEq, Repr

/-- `sync(screenName)` dispatch: `IMAGES_UPDATED -> syncImages; else ->
syncTranslations`, where `syncTranslations` maps the `COLORS_UPDATED`
event name to the `__colors__` tab. -/
def syncDispatch (screenName : String) : SdkAction :=
  if screenName = IMAGES_UPDATED then .syncImagesAction
  else .syncTranslationsFor (if screenName = COLORS_UPDATED then "__colors__" else screenName)

/-- `syncIfOutdated()`: sync all known tabs plus the colors and images
special content, then emit `ALL_SCREENS_UPDATED` (Kotlin `.distinct()`
and Swift `Set` conversions are modelled order-insensitively by
`List.dedup`; the claims only use membership). -/
def syncIfOutdatedActions (st : RnState) : List SdkAction :=
  ((st.knownProjectTabs.dedup ++ [COLORS_UPDATED, IMAGES_UPDATED]).map syncDispatch)
    ++ [SdkAction.emitAllScreens]

/-- `handleSocketTranslationUpdate`: `"__ALL__"` (case-insensitive)
triggers `syncIfOutdated`, otherwise the named tab is synced (colors
routed through the `COLORS_UPDATED` constant). -/
def handleTranslationsUpdated (st : RnState) (screenName : Option String) :
    List SdkAction :=
  match screenName with
  | none => []
  | some n =>
    if eqIgnoreCase n "__ALL__" then syncIfOutdatedActions st
    else [syncDispatch (if eqIgnoreCase n "__colors__" then COLORS_UPDATED else n)]

/-- The socket handlers registered by `setupSocketHandlers` in the
`com.reactnativecmscuresdk` variant.  `handshake_ack` sets
`handshakeAcknowledged = true` and runs `syncIfOutdated()`. -/
def onSocketEvent (st : RnState) (ev : SocketEvent) : RnState × List SdkAction :=
  match ev with
  | .connect => ({ st with handshakeAcknowledged := false }, [.sendHandshake])
  | .handshakeAck => ({ st with handshakeAcknowledged := true }, syncIfOutdatedActions st)
  | .translationsUpdated sn => (st, handleTranslationsUpdated st sn)
  | .dataStoreUpdated _ => (st, [])
  | .disconnect => ({ st with handshakeAcknowledged := false }, [])
  | .connectError => (st, [])

/-- `loadCacheFromDisk`: a `JsonSyntaxException` deletes the corrupted
file and resets the cache to empty; any other exception only resets the
cache; a valid file is decoded. -/
def loadCacheFromDisk : DiskFile Cache → Cache × DiskFile Cache
  | .absent => ([], .absent)
  | .corrupted => ([], .absent)
  | .unreadable => ([], .unreadable)
  | .valid c => (c, .valid c)

/-- `loadTabsFromDisk`: same discipline as `loadCacheFromDisk` for the
known-tabs snapshot file. -/
def loadTabsFromDisk : DiskFile (List String) → List String × DiskFile (List String)
  | .absent => ([], .absent)
  | .corrupted => ([], .absent)
  | .unreadable => ([], .unreadable)
  | .valid tabs => (tabs, .valid tabs)

/-- `configure(context, projectId, apiKey, projectSecret, ...)` with the
default (always well-formed) server and socket URLs: validates the
three credential fields, refuses a second configuration, and on success
stores the configuration and derives the initial symmetric key from the
client-supplied secret.  The second component lists the error logs. -/
def configure (st : RnState) (projectId apiKey projectSecret : String) :
    RnState × List String :=
  if projectId = "" then (st, ["Config failed: Project ID cannot be empty."])
  else if apiKey = "" then (st, ["Config failed: API Key cannot be empty."])
  else if projectSecret = "" then (st, ["Config failed: Project Secret cannot be empty."])
  else if st.configuration.isSome then (st, ["Config ignored: SDK already configured."])
  else
    ({ st with
        configuration := some ⟨projectId, apiKey, projectSecret⟩
        apiSecret := some projectSecret
        symmetricKey := some (.sha256aes projectSecret) }, [])

end KotlinRN

namespace SwiftSDK

open CMSCure

/-- Contiguous-substring test on character lists, modelling Swift
`String.contains(_:)` for the `handleNetworkResponse` context check. -/
def charsContain (needle : List Char) : List Char → Bool
  | [] => needle.isEmpty
  | c :: t => needle.isPrefixOf (c :: t) || charsContain needle t

/-- `s.lowercased()` as a character list. -/
def lowerChars (s : String) : List Char := s.data.map Char.toLower

/-- `context.lowercased().contains("syncing")`. -/
def containsSyncing (context : String) : Bool :=
  charsContain "syncing".data (lowerChars context)

/-- The context string `"syncing '\(screenName)'"` that `syncTranslations`
passes to `handleNetworkResponse`. -/
def syncingContext (screenName : String) : String :=
  "syncing '" ++ screenName ++ "'"

/-- The decoded body of a translations/colors HTTP response: either a
JSON object with a well-formed `keys` array, or data that fails the
`JSONSerialization` / `keys`-extraction step of `syncTranslations`. -/
inductive BodyData where
  | keysObject (ks : List TranslationKeyItem)
  | malformed
  deriving DecidableEq, Repr

/-- What the transport layer produced: a client-side error, or an HTTP
response with a status code and an optional body. -/
inductive HTTPOutcome where
  | netError
  | response (statusCode : Nat) (body : Option BodyData)
  deriving DecidableEq, Repr

/-- `handleNetworkResponse(data:response:error:context:)`.
Result `none` models returning `nil` (a critical failure), `some none`
models returning empty `Data` (success with no content) and
`some (some b)` models returning the response data. A 404 in a context
containing "syncing" is returned as empty `Data` before the 2xx check. -/
def handleNetworkResponse (outcome : HTTPOutcome) (context : String) :
    Option (Option BodyData) :=
  match outcome with
  | .netError => none
  | .response statusCode body =>
    if statusCode = 404 ∧ containsSyncing context = true then some none
    else if 200 ≤ statusCode ∧ statusCode ≤ 299 then
      match body with
      | none => some none
      | some b => some (some b)
    else none

/-- The mutable state of the Swift `CMSCureSDK` singleton (fields
relevant to the claims; `offlineTabList` always mirrors
`knownProjectTabs` and is omitted). -/
structure SwiftState where
  configuration : Option FullConfiguration
  apiSecret : Option String
  symmetricKey : Option DerivedKey
  authToken : Option String
  knownProjectTabs : List String
  cache : Cache
  currentLanguage : String
  handshakeAcknowledged : Bool
  deriving DecidableEq, Repr

/-- State right after `init()` on a fresh install. -/
def initialSwiftState : SwiftState :=
  { configuration := none
    apiSecret := none
    symmetricKey := none
    authToken := none
    knownProjectTabs := []
    cache := []
    currentLanguage := "en"
    handshakeAcknowledged := false }

/-- `translation(for:inTab:)`: `cache[screenName]?[key]?[currentLanguage] ?? ""`. -/
def SwiftState.translation (st : SwiftState) (forKey inTab : String) : String :=
  (alookup3 st.cache inTab forKey st.currentLanguage).getD ""

/-- `colorValue(for:)`: `cache["__colors__"]?[key]?["color"]`. -/
def SwiftState.colorValue (st : SwiftState) (forKey : String) : Option String :=
  alookup3 st.cache "__colors__" forKey "color"

/-- `imageURL(forKey:)` before URL validation:
`cache["__images__"]?[key]?["url"]`. -/
def SwiftState.imageURLString (st : SwiftState) (forKey : String) : Option String :=
  alookup3 st.cache "__images__" forKey "url"

/-- `configure(projectId:apiKey:projectSecret:)`: validates the three
fields, refuses a second call, then stores the configuration and
derives the symmetric key from the client-supplied secret.  The second
component lists the `logError` messages produced. -/
def configure (st : SwiftState) (projectId apiKey projectSecret : String) :
    SwiftState × List String :=
  if projectId = "" then (st, ["Configuration failed: Project ID cannot be empty."])
  else if apiKey = "" then (st, ["Configuration failed: API Key cannot be empty."])
  else if projectSecret = "" then (st, ["Configuration failed: Project Secret cannot be empty."])
  else if st.configuration.isSome then
    (st, ["Configuration ignored: SDK has already been configured."])
  else
    ({ st with
        configuration := some ⟨projectId, apiKey, projectSecret⟩
        apiSecret := some projectSecret
        symmetricKey := some (.sha256aes projectSecret) }, [])

/-- The decoded `AuthResult_OriginalWithTabs` of the Swift auth flow. -/
structure AuthResultSwift where
  token : Option String
  userId : Option String
  projectId : Option String
  projectSecret : Option String
  tabs : Option (List String)
  deriving DecidableEq, Repr

/-- `_performLegacyAuthenticationAndConnect` state update on a decoded
response: requires a non-empty token, then stores the token and the
received tabs.  The `projectSecret` field of the response is never
read, so the symmetric key derived at `configure` time is kept as is. -/
def performLegacyAuthentication (st : SwiftState)
    (resp : NetResult AuthResultSwift) : SwiftState × Bool :=
  match st.configuration with
  | none => (st, false)
  | some _ =>
    match resp with
    | .err => (st, false)
    | .ok a =>
      match a.token with
      | none => (st, false)
      | some t =>
        if t = "" then (st, false)
        else
          ({ st with authToken := some t, knownProjectTabs := a.tabs.getD [] }, true)

/-- The key under which `sendHandshake(projectId:)` AES-GCM-encrypts its
`{projectId}` payload: derived on the spot, by SHA-256, from
`configuration?.projectSecret` — the client-supplied secret. -/
def sendHandshakeKey (st : SwiftState) : Option DerivedKey :=
  match st.configuration with
  | none => none
  | some c =>
    if c.projectSecret = "" then none
    else some (.sha256aes c.projectSecret)

/-- `setLanguage(_:force:)` (synchronous part inside `cacheQueue.sync`):
updates only `currentLanguage` and computes the tabs that will then be
re-synced in the background (`Set(cache.keys).union(knownProjectTabs)`). -/
def setLanguage (st : SwiftState) (language : String) (force : Bool) :
    SwiftState × List String :=
  match st.configuration with
  | none => (st, [])
  | some _ =>
    if language ≠ st.currentLanguage ∨ force = true then
      ({ st with currentLanguage := language },
        (st.cache.map Prod.fst ++ st.knownProjectTabs).dedup)
    else (st, [])

/-- `syncTranslations(screenName:completion:)`: runs the completion
handler body on the given HTTP outcome.  Empty response data (including
a 404 turned into empty data by `handleNetworkResponse`) completes with
`true` and leaves the cache untouched; a parse failure completes with
`false`; a decoded `keys` array is merged into the screen cache
(existing screen dictionary kept as the base, each fetched key
replacing its full language map) and the tab is added to
`knownProjectTabs` if new. -/
def syncTranslations (st : SwiftState) (screenName : String)
    (outcome : HTTPOutcome) : SwiftState × Bool :=
  match st.configuration with
  | none => (st, false)
  | some _ =>
    match handleNetworkResponse outcome (syncingContext screenName) with
    | none => (st, false)
    | some none => (st, true)
    | some (some .malformed) => (st, false)
    | some (some (.keysObject ks)) =>
      let newScreen := applyTranslationItems ((alookup st.cache screenName).getD []) ks
      let tabs :=
        if st.knownProjectTabs.contains screenName then st.knownProjectTabs
        else st.knownProjectTabs ++ [screenName]
      ({ st with cache := aput st.cache screenName newScreen, knownProjectTabs := tabs }, true)

/-- `syncImages(completion:)`: on success the `__images__` screen is
replaced wholesale with a freshly built dictionary. -/
def syncImages (st : SwiftState) (resp : NetResult (List ImageAsset)) :
    SwiftState × Bool :=
  match st.configuration with
  | none => (st, false)
  | some _ =>
    match resp with
    | .err => (st, false)
    | .ok assets =>
      let newImageCache :=
        assets.foldl (fun acc asset => aput acc asset.key [("url", asset.url)]) []
      ({ st with cache := aput st.cache "__images__" newImageCache }, true)

/-- The tab set computed by `syncIfOutdated()`: nothing when the SDK is
unconfigured or the symmetric key is missing, otherwise all cached and
known tabs except the `__`-internal ones, plus `__colors__` and
`__images__`. -/
def syncIfOutdatedTargets (st : SwiftState) : List String :=
  match st.configuration with
  | none => []
  | some _ =>
    if st.symmetricKey.isSome then
      ((st.cache.map Prod.fst ++ st.knownProjectTabs).dedup.filter
          (fun t => !(t.startsWith "__")))
        ++ ["__colors__", "__images__"]
    else []

/-- The `handshake_ack` listener of the Swift SDK: marks the handshake
acknowledged and runs `syncIfOutdated()`. -/
def onHandshakeAck (st : SwiftState) : SwiftState × List String :=
  ({ st with handshakeAcknowledged := true }, syncIfOutdatedTargets st)

/-- `loadCacheFromDisk()`: a decode failure or a read failure removes
the snapshot file and keeps the initial empty cache. -/
def loadCacheFromDisk : DiskFile Cache → Cache × DiskFile Cache
  | .absent => ([], .absent)
  | .corrupted => ([], .absent)
  | .unreadable => ([], .absent)
  | .valid c => (c, .valid c)

/-- `loadOfflineTabListFromDisk()`: same discipline for `tabs.json`. -/
def loadTabsFromDisk : DiskFile (List String) → List String × DiskFile (List String)
  | .absent => ([], .absent)
  | .corrupted => ([], .absent)
  | .unreadable => ([], .unreadable)
  | .valid tabs => (tabs, .valid tabs)

end SwiftSDK

open CMSCure

/-- A configured `com.cmscure.sdk` state. -/
def exampleKtConfigured : KotlinCure.SDKState :=
  { KotlinCure.initialState with configuration := some ⟨"p1", "k1"⟩ }

/-- A configured `com.cmscure.sdk` state whose "home" tab already caches
the item key "old". -/
def exampleKtCached : KotlinCure.SDKState :=
  { KotlinCure.initialState with
      configuration := some ⟨"p1", "k1"⟩
      cache := [("home", [("old", [("en", "x")])])] }

/-- A freshly configured Swift SDK state (client secret "s1"). -/
def exampleSwiftConfigured : SwiftSDK.SwiftState :=
  { SwiftSDK.initialSwiftState with
      configuration := some ⟨"p1", "k1", "s1"⟩
      apiSecret := some "s1"
      symmetricKey := some (.sha256aes "s1") }

/-- A configured Swift state whose "empty_tab" tab already caches a
value for "anykey" in locale "en". -/
def exampleSwiftCached : SwiftSDK.SwiftState :=
  { exampleSwiftConfigured with
      cache := [("empty_tab", [("anykey", [("en", "old")])])] }

/-- A reactnativecmscuresdk state after a successful auth that reported
the tab "home". -/
def exampleRnState : KotlinRN.RnState :=
  { configuration := some ⟨"p1", "k1", "s1"⟩
    apiSecret := some "s1"
    symmetricKey := some (.sha256aes "s1")
    authToken := some "t"
    cache := []
    currentLanguage := "en"
    knownProjectTabs := ["home"]
    handshakeAcknowledged := false }

/-- The auth response of the spec scenario: token "t", server-confirmed
secret "s1-confirmed" (different from the client-supplied "s1"),
tabs ["home"], stores ["deals"]. -/
def exampleAuthResultKt : KotlinCure.AuthResult :=
  ⟨some "t", some "s1-confirmed", some ["home"], some ["deals"]⟩

/-- The same auth response as decoded by the Swift SDK. -/
def exampleAuthResultSwift : SwiftSDK.AuthResultSwift :=
  ⟨some "t", none, some "p1", some "s1-confirmed", some ["home"]⟩

namespace CMSCure

theorem alookup_aput {α : Type} (m : List (String × α)) (k key : String) (v : α) :
    alookup (aput m k v) key = if k = key then some v else alookup m key := by
  induction m with
  | nil =>
      by_cases h : k = key <;> simp [aput, alookup, h]
  | cons hd tl ih =>
      obtain ⟨k1, w⟩ := hd
      by_cases h1 : k1 = k
      · subst h1
        by_cases h2 : k1 = key <;> simp [aput, alookup, h2]
      · by_cases h2 : k1 = key
        · subst h2
          have hk : ¬ k = k1 := fun h => h1 h.symm
          simp [aput, alookup, h1, hk]
        · simp [aput, alookup, h1, h2, ih]

theorem decodeFields_map {α : Type} (f : Json → Option α) (g : α → Json)
    (h : ∀ a, f (g a) = some a) (l : List (String × α)) :
    decodeFields f (l.map (fun p => (p.1, g p.2))) = some l := by
  induction l with
  | nil => simp [decodeFields]
  | cons hd tl ih => simp [decodeFields, h hd.2, ih]

theorem decodeElems_map {α : Type} (f : Json → Option α) (g : α → Json)
    (h : ∀ a, f (g a) = some a) (l : List α) :
    decodeElems f (l.map g) = some l := by
  induction l with
  | nil => simp [decodeElems]
  | cons hd tl ih => simp [decodeElems, h hd, ih]

theorem decodeLocaleMap_encodeLocaleMap (lm : LocaleMap) :
    decodeLocaleMap (encodeLocaleMap lm) = some lm := by
  simpa [decodeLocaleMap, encodeLocaleMap, decodeObj] using
    decodeFields_map decodeStringJson Json.str (fun a => rfl) lm

theorem decodeScreen_encodeScreen (sc : ScreenCache) :
    decodeScreen (encodeScreen sc) = some sc := by
  simpa [decodeScreen, encodeScreen, decodeObj] using
    decodeFields_map decodeLocaleMap encodeLocaleMap
      decodeLocaleMap_encodeLocaleMap sc

theorem decodeCache_encodeCache (c : Cache) :
    decodeCache (encodeCache c) = some c := by
  simpa [decodeCache, encodeCache, decodeObj] using
    decodeFields_map decodeScreen encodeScreen decodeScreen_encodeScreen c

theorem decodeJSONValue_encodeJSONValue (v : JSONValue) :
    decodeJSONValue (encodeJSONValue v) = some v := by
  cases v with
  | localizedStringValue m =>
      simp [encodeJSONValue, decodeJSONValue,
        decodeFields_map decodeStringJson Json.str (fun a => rfl) m]
  | _ => rfl

theorem decodeDataStoreItem_encodeDataStoreItem (item : DataStoreItem) :
    decodeDataStoreItem (encodeDataStoreItem item) = some item := by
  simp [encodeDataStoreItem, decodeDataStoreItem, alookup, decodeObj,
    decodeFields_map decodeJSONValue encodeJSONValue
      decodeJSONValue_encodeJSONValue item.data]

theorem decodeStoreItems_encodeStoreItems (items : List DataStoreItem) :
    decodeStoreItems (encodeStoreItems items) = some items := by
  simpa [decodeStoreItems, encodeStoreItems] using
    decodeElems_map decodeDataStoreItem encodeDataStoreItem
      decodeDataStoreItem_encodeDataStoreItem items

theorem decodeDataStoreCache_encodeDataStoreCache
    (dsc : List (String × List DataStoreItem)) :
    decodeDataStoreCache (encodeDataStoreCache dsc) = some dsc := by
  simpa [decodeDataStoreCache, encodeDataStoreCache, decodeObj] using
    decodeFields_map decodeStoreItems encodeStoreItems
      decodeStoreItems_encodeStoreItems dsc

theorem alookup_applyTranslationItems (sc : ScreenCache)
    (ks : List TranslationKeyItem) (k : String) :
    alookup (applyTranslationItems sc ks) k
      = match lastValues ks k with
        | some v => some v
        | none => alookup sc k := by
  induction ks generalizing sc with
  | nil => simp [applyTranslationItems, lastValues]
  | cons item rest ih =>
      have hstep : applyTranslationItems sc (item :: rest)
          = applyTranslationItems (aput sc item.key item.values) rest := rfl
      rw [hstep, ih]
      cases h : lastValues rest k with
      | some v => simp [lastValues, h]
      | none =>
          by_cases hk : item.key = k <;>
            simp [lastValues, h, alookup_aput, hk]

end CMSCure

namespace SwiftSDK

open CMSCure

theorem isPrefixOf_append_self (l rest : List Char) :
    l.isPrefixOf (l ++ rest) = true := by
  induction l with
  | nil => simp [List.isPrefixOf]
  | cons a as ih => simp [List.isPrefixOf, ih]

theorem charsContain_append_self (needle rest : List Char) :
    charsContain needle (needle ++ rest) = true := by
  match needle, rest with
  | [], [] => simp [charsContain, List.isEmpty]
  | [], c :: t => simp [charsContain, List.isPrefixOf]
  | n :: ns, rest =>
      simp [charsContain, isPrefixOf_append_self (n :: ns) rest]

theorem containsSyncing_syncingContext (screenName : String) :
    containsSyncing (syncingContext screenName) = true := by
  have hdata : (syncingContext screenName).data
      = "syncing '".data ++ (screenName.data ++ [Char.ofNat 39]) := by
    simp [syncingContext, String.data_append]
  have hlow : ("syncing '".data).map Char.toLower = "syncing '".data := by decide
  have hsplit : "syncing '".data = "syncing".data ++ [' ', Char.ofNat 39] := by decide
  rw [containsSyncing, lowerChars, hdata, List.map_append, hlow, hsplit,
    List.append_assoc]
  exact charsContain_append_self "syncing".data _

end SwiftSDK

theorem alookup2_aput_self (c : Cache) (screen : String) (sc : ScreenCache)
    (k : String) :
    alookup2 (aput c screen sc) screen k = alookup sc k := by
  rw [alookup2, alookup_aput, if_pos rfl]
  rfl

theorem alookup_getD_base (c : Cache) (screen k : String) :
    alookup ((alookup c screen).getD []) k = alookup2 c screen k := by
  cases h : alookup c screen <;> simp [alookup2, h, alookup]

theorem syncImages_foldl_as_items (assets : List ImageAsset) (sc : ScreenCache) :
    assets.foldl (fun acc asset => aput acc asset.key [("url", asset.url)]) sc
      = applyTranslationItems sc
          (assets.map (fun a => ⟨a.key, [("url", a.url)]⟩)) := by
  simp [applyTranslationItems, List.foldl_map]

/-- C1 counterexample: on the `com.cmscure.sdk` Kotlin `syncTranslations`
(the first code source of the claim), a successful sync whose server
response contains only the key "new" leaves the previously cached key
"old" — absent from the response — in the cache, so the namespace is
not replaced wholesale. -/
theorem sync_not_wholesale_counterexample :
    (KotlinCure.syncTranslations exampleKtCached "home"
        (.ok ⟨some [⟨"new", [("en", "y")]⟩]⟩)).2 = true
    ∧ alookup2 (KotlinCure.syncTranslations exampleKtCached "home"
        (.ok ⟨some [⟨"new", [("en", "y")]⟩]⟩)).1.cache "home" "old"
      = some [("en", "x")] := by
  decide

/-- C1 (amended): after a successful translations/colors or images sync,
every item key occurring in the server response has its whole locale
map replaced by exactly the fetched one (the last occurrence winning),
item keys previously cached in that namespace but absent from the
response remain unchanged, and other namespaces are untouched; only the
data-store sync replaces its namespace wholesale. -/
theorem sync_merges_at_item_key_level (st : KotlinCure.SDKState)
    (cfg : KotlinCure.CureConfiguration) (screenName : String)
    (ks : List TranslationKeyItem) (assets : List ImageAsset)
    (h : st.configuration = some cfg) :
    ((KotlinCure.syncTranslations st screenName (.ok ⟨some ks⟩)).2 = true
      ∧ (∀ k, alookup2 (KotlinCure.syncTranslations st screenName
            (.ok ⟨some ks⟩)).1.cache screenName k
          = match lastValues ks k with
            | some v => some v
            | none => alookup2 st.cache screenName k)
      ∧ (∀ other, other ≠ screenName →
          alookup (KotlinCure.syncTranslations st screenName
              (.ok ⟨some ks⟩)).1.cache other
            = alookup st.cache other))
    ∧ ((KotlinCure.syncImages st (.ok assets)).2 = true
      ∧ ∀ k, alookup2 (KotlinCure.syncImages st (.ok assets)).1.cache
            KotlinCure.IMAGES_UPDATED k
          = match lastValues (assets.map (fun a => ⟨a.key, [("url", a.url)]⟩)) k with
            | some v => some v
            | none => alookup2 st.cache KotlinCure.IMAGES_UPDATED k)
    ∧ (∀ sid items, KotlinCure.syncStore st sid (.ok ⟨items⟩)
        = ({ st with dataStoreCache := aput st.dataStoreCache sid items }, true)) := by
  refine ⟨⟨?_, ?_, ?_⟩, ⟨?_, ?_⟩, ?_⟩
  · simp [KotlinCure.syncTranslations, h]
  · intro k
    simp only [KotlinCure.syncTranslations, h]
    rw [alookup2_aput_self, alookup_applyTranslationItems, alookup_getD_base]
  · intro other hne
    simp only [KotlinCure.syncTranslations, h]
    rw [alookup_aput, if_neg (fun h2 => hne h2.symm)]
  · simp [KotlinCure.syncImages, h]
  · intro k
    simp only [KotlinCure.syncImages, h]
    rw [alookup2_aput_self, syncImages_foldl_as_items,
      alookup_applyTranslationItems, alookup_getD_base]
  · intro sid items
    simp [KotlinCure.syncStore, h]

/-- C1 witness: a concrete merging sync where the new key gets exactly
the fetched locale map. -/
theorem sync_merges_witness :
    alookup2 (KotlinCure.syncTranslations exampleKtCached "home"
        (.ok ⟨some [⟨"new", [("en", "y")]⟩]⟩)).1.cache "home" "new"
      = some [("en", "y")] := by
  have hmain := sync_merges_at_item_key_level exampleKtCached ⟨"p1", "k1"⟩ "home"
    [⟨"new", [("en", "y")]⟩] [] rfl
  have hk := hmain.1.2.1 "new"
  have hv : lastValues [⟨"new", [("en", "y")]⟩] "new" = some [("en", "y")] := by decide
  rw [hk, hv]

/-- C2: reads on never-synced content return the empty/default values
(`""`, `null`, `null`, empty list) and, being total functions of the
state, cannot raise. -/
theorem unsynced_reads_return_defaults (st : KotlinCure.SDKState)
    (sw : SwiftSDK.SwiftState) (ns forKey ck ik sid ns2 k2 : String)
    (h1 : alookup2 st.cache ns forKey = none)
    (h2 : alookup2 st.cache "__colors__" ck = none)
    (h3 : alookup2 st.cache "__images__" ik = none)
    (h4 : alookup st.dataStoreCache sid = none)
    (h5 : alookup2 sw.cache ns2 k2 = none) :
    st.translation forKey ns = ""
    ∧ st.colorValue ck = none
    ∧ st.imageURL ik = none
    ∧ st.getStoreItems sid = []
    ∧ sw.translation k2 ns2 = "" := by
  refine ⟨?_, ?_, ?_, ?_, ?_⟩
  · simp [KotlinCure.SDKState.translation, alookup3, h1]
  · simp [KotlinCure.SDKState.colorValue, alookup3, h2]
  · simp [KotlinCure.SDKState.imageURL, KotlinCure.IMAGES_UPDATED, alookup3, h3]
  · simp [KotlinCure.SDKState.getStoreItems, h4]
  · simp [SwiftSDK.SwiftState.translation, alookup3, h5]

/-- C2 witness: the fresh post-`init` states. -/
theorem unsynced_reads_witness :
    KotlinCure.initialState.translation "title" "home" = ""
    ∧ KotlinCure.initialState.colorValue "primary" = none
    ∧ KotlinCure.initialState.imageURL "logo" = none
    ∧ KotlinCure.initialState.getStoreItems "deals" = []
    ∧ SwiftSDK.initialSwiftState.translation "title" "home" = "" :=
  unsynced_reads_return_defaults KotlinCure.initialState SwiftSDK.initialSwiftState
    "home" "title" "primary" "logo" "deals" "home" "title" rfl rfl rfl rfl rfl

/-- C3: a network error (thrown exception / URLSession error) or a
parse error during sync leaves the state exactly as it was and invokes
the completion with `false`, in all three sync paths of the Kotlin
`com.cmscure.sdk` variant and in the Swift `syncTranslations` and
`syncImages`. -/
theorem sync_error_preserves_cache (st : KotlinCure.SDKState)
    (sw : SwiftSDK.SwiftState) (screenName sid : String) :
    KotlinCure.syncTranslations st screenName .err = (st, false)
    ∧ KotlinCure.syncStore st sid .err = (st, false)
    ∧ KotlinCure.syncImages st .err = (st, false)
    ∧ SwiftSDK.syncTranslations sw screenName .netError = (sw, false)
    ∧ SwiftSDK.syncTranslations sw screenName (.response 200 (some .malformed)) = (sw, false)
    ∧ SwiftSDK.syncImages sw .err = (sw, false) := by
  refine ⟨?_, ?_, ?_, ?_, ?_, ?_⟩
  · cases h : st.configuration <;> simp [KotlinCure.syncTranslations, h]
  · cases h : st.configuration <;> simp [KotlinCure.syncStore, h]
  · cases h : st.configuration <;> simp [KotlinCure.syncImages, h]
  · cases h : sw.configuration <;>
      simp [SwiftSDK.syncTranslations, SwiftSDK.handleNetworkResponse, h]
  · cases h : sw.configuration <;>
      simp [SwiftSDK.syncTranslations, SwiftSDK.handleNetworkResponse, h]
  · cases h : sw.configuration <;> simp [SwiftSDK.syncImages, h]

/-- C4 counterexample: with a configured Swift SDK whose "empty_tab"
already caches a value, a 404 response still completes the sync with
`true`, but `translation` then returns the previously cached value,
not the empty string. -/
theorem http404_translation_counterexample :
    (SwiftSDK.syncTranslations exampleSwiftCached "empty_tab" (.response 404 none)).2 = true
    ∧ (SwiftSDK.syncTranslations exampleSwiftCached "empty_tab"
        (.response 404 none)).1.translation "anykey" "empty_tab" = "old"
    ∧ (SwiftSDK.syncTranslations exampleSwiftCached "empty_tab"
        (.response 404 none)).1.translation "anykey" "empty_tab" ≠ "" := by
  decide

/-- C4 (amended): in the iOS implementation, a 404 on a
translations/colors fetch completes with `true` (treated as
successfully synced with zero content) and leaves the tab's cached
content exactly unchanged, so `translation(key, tab)` returns the empty
string for every key that had no previously cached value for the
current locale (in particular for every key of a tab never synced
before); in the `com.cmscure.sdk` Android variant the Retrofit call
answers the 404 by throwing `HttpException`, so there the same fetch
completes with `false` — a 404 IS reported as a sync failure — likewise
leaving the content unchanged. -/
theorem http404_treated_as_success (sw : SwiftSDK.SwiftState)
    (st : KotlinCure.SDKState) (cfg : FullConfiguration) (tab : String)
    (body : Option SwiftSDK.BodyData)
    (h : sw.configuration = some cfg) :
    SwiftSDK.syncTranslations sw tab (.response 404 body) = (sw, true)
    ∧ (∀ k, alookup2 sw.cache tab k = none →
        (SwiftSDK.syncTranslations sw tab (.response 404 body)).1.translation k tab = "")
    ∧ KotlinCure.syncTranslations st tab KotlinCure.http404Outcome = (st, false) := by
  have hresp : SwiftSDK.handleNetworkResponse (.response 404 body)
      (SwiftSDK.syncingContext tab) = some none := by
    simp [SwiftSDK.handleNetworkResponse, SwiftSDK.containsSyncing_syncingContext tab]
  refine ⟨?_, ?_, ?_⟩
  · simp [SwiftSDK.syncTranslations, h, hresp]
  · intro k hk
    simp [SwiftSDK.syncTranslations, h, hresp,
      SwiftSDK.SwiftState.translation, alookup3, hk]
  · cases hc : st.configuration <;>
      simp [KotlinCure.syncTranslations, KotlinCure.http404Outcome, hc]

/-- C4 witness: a 404 for a never-synced tab resolves `true` and reads
as the empty string on the iOS path, and resolves `false` on the
`com.cmscure.sdk` path. -/
theorem http404_witness :
    SwiftSDK.syncTranslations exampleSwiftConfigured "empty_tab" (.response 404 none)
      = (exampleSwiftConfigured, true)
    ∧ (SwiftSDK.syncTranslations exampleSwiftConfigured "empty_tab"
        (.response 404 none)).1.translation "anykey" "empty_tab" = ""
    ∧ KotlinCure.syncTranslations exampleKtConfigured "empty_tab"
        KotlinCure.http404Outcome
      = (exampleKtConfigured, false) := by
  have h := http404_treated_as_success exampleSwiftConfigured exampleKtConfigured
    ⟨"p1", "k1", "s1"⟩ "empty_tab" none rfl
  exact ⟨h.1, h.2.1 "anykey" rfl, h.2.2⟩

/-- C5: on a `handshake_ack` event the `com.reactnativecmscuresdk` and
Swift handlers mark the handshake acknowledged and immediately schedule
the full `syncIfOutdated` pass (covering every known tab plus colors
and images) — on every receipt, hence on every reconnect; the
`com.cmscure.sdk` handler, however, only logs: it records no
acknowledgement and schedules no sync at all. -/
theorem handshake_ack_behaviour (rn : KotlinRN.RnState)
    (sw : SwiftSDK.SwiftState) (kt : KotlinCure.SDKState) (tab : String)
    (htab : tab ∈ rn.knownProjectTabs) :
    (KotlinRN.onSocketEvent rn .handshakeAck).1
        = { rn with handshakeAcknowledged := true }
    ∧ (KotlinRN.onSocketEvent rn .handshakeAck).2 = KotlinRN.syncIfOutdatedActions rn
    ∧ KotlinRN.syncDispatch tab ∈ (KotlinRN.onSocketEvent rn .handshakeAck).2
    ∧ SdkAction.syncTranslationsFor "__colors__" ∈ (KotlinRN.onSocketEvent rn .handshakeAck).2
    ∧ SdkAction.syncImagesAction ∈ (KotlinRN.onSocketEvent rn .handshakeAck).2
    ∧ SwiftSDK.onHandshakeAck sw
        = ({ sw with handshakeAcknowledged := true }, SwiftSDK.syncIfOutdatedTargets sw)
    ∧ KotlinCure.onSocketEvent kt .handshakeAck = (kt, []) := by
  refine ⟨rfl, rfl, ?_, ?_, ?_, rfl, rfl⟩
  · exact List.mem_append_left _ (List.mem_map_of_mem _
      (List.mem_append_left _ (List.mem_dedup.mpr htab)))
  · have hm : KotlinRN.syncDispatch KotlinRN.COLORS_UPDATED
        ∈ (KotlinRN.onSocketEvent rn .handshakeAck).2 :=
      List.mem_append_left _ (List.mem_map_of_mem _
        (List.mem_append_right _ (by decide)))
    have he : KotlinRN.syncDispatch KotlinRN.COLORS_UPDATED
        = SdkAction.syncTranslationsFor "__colors__" := by decide
    exact he ▸ hm
  · have hm : KotlinRN.syncDispatch KotlinRN.IMAGES_UPDATED
        ∈ (KotlinRN.onSocketEvent rn .handshakeAck).2 :=
      List.mem_append_left _ (List.mem_map_of_mem _
        (List.mem_append_right _ (by decide)))
    have he : KotlinRN.syncDispatch KotlinRN.IMAGES_UPDATED
        = SdkAction.syncImagesAction := by decide
    exact he ▸ hm

/-- C5 witness: concrete states for all three handlers. -/
theorem handshake_ack_witness :
    (KotlinRN.onSocketEvent exampleRnState .handshakeAck).1.handshakeAcknowledged = true
    ∧ SdkAction.syncTranslationsFor "home"
        ∈ (KotlinRN.onSocketEvent exampleRnState .handshakeAck).2
    ∧ KotlinCure.onSocketEvent exampleKtConfigured .handshakeAck
        = (exampleKtConfigured, []) := by
  have h := handshake_ack_behaviour exampleRnState exampleSwiftConfigured
    exampleKtConfigured "home" (by decide)
  refine ⟨by rw [h.1], ?_, h.2.2.2.2.2.2⟩
  have hd : KotlinRN.syncDispatch "home" = SdkAction.syncTranslationsFor "home" := by
    decide
  exact hd ▸ h.2.2.1

/-- C6: after a successful auth whose server-confirmed secret differs
from the client-supplied one, the Android (`com.cmscure.sdk`)
implementation encrypts subsequent handshakes under the key re-derived
from the server-confirmed secret, but the Swift implementation ignores
the confirmed secret entirely: its auth succeeds and its handshake key
is still derived from the client-supplied configuration secret. -/
theorem handshake_key_after_auth :
    KotlinCure.handshakeKey
        (KotlinCure.performAuthentication exampleKtConfigured (.ok exampleAuthResultKt))
      = some (DerivedKey.sha256aes "s1-confirmed")
    ∧ (SwiftSDK.performLegacyAuthentication exampleSwiftConfigured
        (.ok exampleAuthResultSwift)).2 = true
    ∧ SwiftSDK.sendHandshakeKey
        (SwiftSDK.performLegacyAuthentication exampleSwiftConfigured
          (.ok exampleAuthResultSwift)).1
      = some (DerivedKey.sha256aes "s1")
    ∧ DerivedKey.sha256aes "s1" ≠ DerivedKey.sha256aes "s1-confirmed" := by
  decide

/-- C7 counterexample: the `com.cmscure.sdk` `loadCacheFromDisk` catches
the parse exception of a corrupted snapshot but does NOT delete the
file — the load result keeps the corrupted file on disk, contradicting
the claim that the corrupted file is deleted. -/
theorem corrupted_cache_kept_counterexample :
    KotlinCure.loadCacheFromDisk .corrupted = ([], DiskFile.corrupted)
    ∧ (KotlinCure.loadCacheFromDisk .corrupted).2 ≠ DiskFile.absent := by
  decide

/-- C7 (amended): a cache or tabs snapshot that fails to parse never
crashes the load — the in-memory structure comes up empty — and the
corrupted file is deleted by the Swift and `com.reactnativecmscuresdk`
loaders, while the `com.cmscure.sdk` loader leaves the corrupted file
in place. -/
theorem corrupted_snapshot_startup :
    SwiftSDK.loadCacheFromDisk .corrupted = ([], .absent)
    ∧ SwiftSDK.loadTabsFromDisk .corrupted = ([], .absent)
    ∧ KotlinRN.loadCacheFromDisk .corrupted = ([], .absent)
    ∧ KotlinRN.loadTabsFromDisk .corrupted = ([], .absent)
    ∧ KotlinCure.loadCacheFromDisk .corrupted = ([], .corrupted) := by
  decide

/-- C8: persisting the cache and data-store snapshots and reloading them
on a simulated restart yields a state that is observationally identical
on every read. -/
theorem persist_reload_roundtrip (st : KotlinCure.SDKState) :
    (KotlinCure.restartFromDisk (KotlinCure.persistCacheToDisk st)
        (KotlinCure.persistDataStoreCacheToDisk st) st.currentLanguage).cache = st.cache
    ∧ (KotlinCure.restartFromDisk (KotlinCure.persistCacheToDisk st)
        (KotlinCure.persistDataStoreCacheToDisk st) st.currentLanguage).dataStoreCache
      = st.dataStoreCache
    ∧ (∀ k tab, (KotlinCure.restartFromDisk (KotlinCure.persistCacheToDisk st)
        (KotlinCure.persistDataStoreCacheToDisk st) st.currentLanguage).translation k tab
      = st.translation k tab)
    ∧ (∀ k, (KotlinCure.restartFromDisk (KotlinCure.persistCacheToDisk st)
        (KotlinCure.persistDataStoreCacheToDisk st) st.currentLanguage).colorValue k
      = st.colorValue k)
    ∧ (∀ k, (KotlinCure.restartFromDisk (KotlinCure.persistCacheToDisk st)
        (KotlinCure.persistDataStoreCacheToDisk st) st.currentLanguage).imageURL k
      = st.imageURL k)
    ∧ (∀ i, (KotlinCure.restartFromDisk (KotlinCure.persistCacheToDisk st)
        (KotlinCure.persistDataStoreCacheToDisk st) st.currentLanguage).getStoreItems i
      = st.getStoreItems i) := by
  have hc : (KotlinCure.restartFromDisk (KotlinCure.persistCacheToDisk st)
      (KotlinCure.persistDataStoreCacheToDisk st) st.currentLanguage).cache = st.cache := by
    simp [KotlinCure.restartFromDisk, KotlinCure.loadCacheJson,
      KotlinCure.persistCacheToDisk, decodeCache_encodeCache]
  have hd : (KotlinCure.restartFromDisk (KotlinCure.persistCacheToDisk st)
      (KotlinCure.persistDataStoreCacheToDisk st) st.currentLanguage).dataStoreCache
      = st.dataStoreCache := by
    simp [KotlinCure.restartFromDisk, KotlinCure.loadDataStoreCacheJson,
      KotlinCure.persistDataStoreCacheToDisk, decodeDataStoreCache_encodeDataStoreCache]
  have hl : (KotlinCure.restartFromDisk (KotlinCure.persistCacheToDisk st)
      (KotlinCure.persistDataStoreCacheToDisk st) st.currentLanguage).currentLanguage
      = st.currentLanguage := rfl
  refine ⟨hc, hd, ?_, ?_, ?_, ?_⟩
  · intro k tab
    simp only [KotlinCure.SDKState.translation]
    rw [hc, hl]
  · intro k
    simp only [KotlinCure.SDKState.colorValue]
    rw [hc]
  · intro k
    simp only [KotlinCure.SDKState.imageURL]
    rw [hc]
  · intro i
    simp only [KotlinCure.SDKState.getStoreItems]
    rw [hd]

/-- C9: `configure` succeeds (no error log, configuration stored, key
derived from the supplied secret) exactly when all three fields are
non-empty and no configuration is stored yet; in every other case —
empty field or already configured — the state is left completely
unchanged and exactly one error message is logged.  The model is a
total function, so the failure is never reported by throwing. -/
theorem configure_accepted_exactly_once (st : SwiftSDK.SwiftState) (p a s : String) :
    (¬ (p ≠ "" ∧ a ≠ "" ∧ s ≠ "" ∧ st.configuration = none) →
      (SwiftSDK.configure st p a s).1 = st
      ∧ (SwiftSDK.configure st p a s).2.length = 1)
    ∧ ((p ≠ "" ∧ a ≠ "" ∧ s ≠ "" ∧ st.configuration = none) →
      (SwiftSDK.configure st p a s).1
        = { st with
              configuration := some ⟨p, a, s⟩
              apiSecret := some s
              symmetricKey := some (.sha256aes s) }
      ∧ (SwiftSDK.configure st p a s).2 = []) := by
  refine ⟨fun hno => ?_, fun hyes => ?_⟩
  · by_cases hp : p = ""
    · simp [SwiftSDK.configure, hp]
    · by_cases ha : a = ""
      · simp [SwiftSDK.configure, hp, ha]
      · by_cases hs : s = ""
        · simp [SwiftSDK.configure, hp, ha, hs]
        · cases hcfg : st.configuration with
          | none => exact absurd ⟨hp, ha, hs, hcfg⟩ hno
          | some c => simp [SwiftSDK.configure, hp, ha, hs, hcfg]
  · obtain ⟨hp, ha, hs, hcfg⟩ := hyes
    simp [SwiftSDK.configure, hp, ha, hs, hcfg]

/-- C9 witness: a second `configure` call on an already configured state
is a no-op with exactly one error log. -/
theorem configure_second_call_witness :
    (SwiftSDK.configure exampleSwiftConfigured "p2" "k2" "s2").1 = exampleSwiftConfigured
    ∧ (SwiftSDK.configure exampleSwiftConfigured "p2" "k2" "s2").2.length = 1 :=
  (configure_accepted_exactly_once exampleSwiftConfigured "p2" "k2" "s2").1
    (by decide)

/-- C10: `setLanguage` never modifies the stored cache content — every
cached locale-to-value map is untouched — and the value surfaced by
`translation` afterwards is the same stored map read at the (possibly
new) current locale; with a configured SDK and a genuinely different
language, the current locale does switch.  Shown for the Swift SDK and
the `com.cmscure.sdk` Kotlin variant. -/
theorem setLanguage_changes_only_surfaced_value (sw : SwiftSDK.SwiftState)
    (st : KotlinCure.SDKState) (lang : String) (force : Bool) (tab k : String) :
    (SwiftSDK.setLanguage sw lang force).1.cache = sw.cache
    ∧ (SwiftSDK.setLanguage sw lang force).1.translation k tab
        = (alookup3 sw.cache tab k (SwiftSDK.setLanguage sw lang force).1.currentLanguage).getD ""
    ∧ (sw.configuration.isSome = true → lang ≠ sw.currentLanguage →
        (SwiftSDK.setLanguage sw lang force).1.currentLanguage = lang)
    ∧ (KotlinCure.setLanguage st lang force).cache = st.cache
    ∧ (KotlinCure.setLanguage st lang force).dataStoreCache = st.dataStoreCache
    ∧ (KotlinCure.setLanguage st lang force).translation k tab
        = (alookup3 st.cache tab k ((KotlinCure.setLanguage st lang force).currentLanguage)).getD "" := by
  have hsw : (SwiftSDK.setLanguage sw lang force).1.cache = sw.cache := by
    cases hc : sw.configuration with
    | none => simp [SwiftSDK.setLanguage, hc]
    | some c =>
        simp only [SwiftSDK.setLanguage, hc]
        split <;> rfl
  have hkt : (KotlinCure.setLanguage st lang force).cache = st.cache
      ∧ (KotlinCure.setLanguage st lang force).dataStoreCache = st.dataStoreCache := by
    unfold KotlinCure.setLanguage
    split <;> exact ⟨rfl, rfl⟩
  refine ⟨hsw, ?_, ?_, hkt.1, hkt.2, ?_⟩
  · simp only [SwiftSDK.SwiftState.translation]
    rw [hsw]
  · intro hcfg hne
    obtain ⟨c, hc⟩ := Option.isSome_iff_exists.mp hcfg
    simp [SwiftSDK.setLanguage, hc, hne]
  · simp only [KotlinCure.SDKState.translation]
    rw [hkt.1]

/-- C10 witness: switching to "fr" on a configured state with cached
content keeps the cache and switches the surfaced locale. -/
theorem setLanguage_witness :
    (SwiftSDK.setLanguage exampleSwiftCached "fr" false).1.cache = exampleSwiftCached.cache
    ∧ (SwiftSDK.setLanguage exampleSwiftCached "fr" false).1.currentLanguage = "fr" := by
  have h := setLanguage_changes_only_surfaced_value exampleSwiftCached
    exampleKtConfigured "fr" false "empty_tab" "anykey"
  exact ⟨h.1, h.2.2.1 (by decide) (by decide)⟩
